import Mathlib

/-!
Verification of the geoconvert coordinate-conversion library.

The source computes with real-valued arithmetic and the transcendental
library functions `Math.sin`, `Math.cos`, `Math.tan`, `Math.sqrt`.  The
shallow embedding is parameterised over a linearly ordered field `R`
together with a `MathOps R` record supplying those four functions, so the
structural facts hold for any interpretation; the numerical claims are
settled at `R := ℝ` with the genuine `Real.sin`, `Real.cos`, `Real.tan`,
`Real.sqrt`.
-/

/-- The four transcendental library functions the source calls. -/
structure MathOps (R : Type) where
  sin : R → R
  cos : R → R
  tan : R → R
  sqrt : R → R

section Embedding

variable {R : Type} [LinearOrderedField R]

/-- Source constant `PI` (the source fixes its own value, line 9). -/
def PI : R := 3.14159265358979

/-- Source constant `UTM_SCALE_FACTOR` (line 11). -/
def UTM_SCALE_FACTOR : R := 0.9996

/-- Source constant `ELLIPSOID_MODEL_MAJOR_AXIS` (line 14). -/
def ELLIPSOID_MODEL_MAJOR_AXIS : R := 6378137.0

/-- Source constant `ELLIPSOID_MODEL_MINOR_AXIS` (line 15). -/
def ELLIPSOID_MODEL_MINOR_AXIS : R := 6356752.314

/-- Source constant `ELLIPSOID_ECCENTRICITY_SQUARED` (line 16, unused by the
conversion routines). -/
def ELLIPSOID_ECCENTRICITY_SQUARED : R := 0.00669437999013

/-- `degToRad` (source lines 20-22). -/
def degToRad (deg : R) : R := deg / 180.0 * PI

/-- `radToDeg` (source lines 24-26). -/
def radToDeg (rad : R) : R := rad / PI * 180.0

/-- The flattening ratio `n` computed inside `arcLengthOfMeridian`
(source line 123). -/
def arcLengthOfMeridian_n : R :=
  (ELLIPSOID_MODEL_MAJOR_AXIS - ELLIPSOID_MODEL_MINOR_AXIS) /
    (ELLIPSOID_MODEL_MAJOR_AXIS + ELLIPSOID_MODEL_MINOR_AXIS)

/-- The series scale `alpha` computed inside `arcLengthOfMeridian`
(source line 126). -/
def arcLengthOfMeridian_alpha : R :=
  ((ELLIPSOID_MODEL_MAJOR_AXIS + ELLIPSOID_MODEL_MINOR_AXIS) / 2.0) *
    (1.0 + (arcLengthOfMeridian_n ^ 2 / 4.0) + (arcLengthOfMeridian_n ^ 4 / 64.0))

/-- `arcLengthOfMeridian` (source lines 96-144). -/
def arcLengthOfMeridian (ops : MathOps R) (phi : R) : R :=
  let n : R := arcLengthOfMeridian_n
  let alpha : R := arcLengthOfMeridian_alpha
  let beta : R := (-3.0 * n / 2.0) + (9.0 * n ^ 3 / 16.0) + (-3.0 * n ^ 5 / 32.0)
  let gamma : R := (15.0 * n ^ 2 / 16.0) + (-15.0 * n ^ 4 / 32.0)
  let delta : R := (-35.0 * n ^ 3 / 48.0) + (105.0 * n ^ 5 / 256.0)
  let epsilon : R := 315.0 * n ^ 4 / 512.0
  alpha * (phi + (beta * ops.sin (2.0 * phi)) + (gamma * ops.sin (4.0 * phi)) +
    (delta * ops.sin (6.0 * phi)) + (epsilon * ops.sin (8.0 * phi)))

/-- `utmCentralMeridian` (source lines 146-164).  Despite its documentation
comment, the source performs no range check on `zone`. -/
def utmCentralMeridian (zone : R) : R := degToRad (-183.0 + (zone * 6.0))

/-- The flattening ratio `n` computed inside `footpointLatitude`
(source line 195). -/
def footpointLatitude_n : R :=
  (ELLIPSOID_MODEL_MAJOR_AXIS - ELLIPSOID_MODEL_MINOR_AXIS) /
    (ELLIPSOID_MODEL_MAJOR_AXIS + ELLIPSOID_MODEL_MINOR_AXIS)

/-- The series scale `alpha_` computed inside `footpointLatitude`
(source line 199; integer literals where line 126 uses decimal ones). -/
def footpointLatitude_alpha : R :=
  ((ELLIPSOID_MODEL_MAJOR_AXIS + ELLIPSOID_MODEL_MINOR_AXIS) / 2.0) *
    (1 + (footpointLatitude_n ^ 2 / 4) + (footpointLatitude_n ^ 4 / 64))

/-- `footpointLatitude` (source lines 166-220). -/
def footpointLatitude (ops : MathOps R) (y : R) : R :=
  let n : R := footpointLatitude_n
  let alpha_ : R := footpointLatitude_alpha
  let y_ : R := y / alpha_
  let beta_ : R := (3.0 * n / 2.0) + (-27.0 * n ^ 3 / 32.0) + (269.0 * n ^ 5 / 512.0)
  let gamma_ : R := (21.0 * n ^ 2 / 16.0) + (-55.0 * n ^ 4 / 32.0)
  let delta_ : R := (151.0 * n ^ 3 / 96.0) + (-417.0 * n ^ 5 / 128.0)
  let epsilon_ : R := 1097.0 * n ^ 4 / 512.0
  y_ + (beta_ * ops.sin (2.0 * y_)) + (gamma_ * ops.sin (4.0 * y_)) +
    (delta_ * ops.sin (6.0 * y_)) + (epsilon_ * ops.sin (8.0 * y_))

/-- `l3coef` (source line 283). -/
def l3coef (t2 nu2 : R) : R := 1.0 - t2 + nu2

/-- `l4coef` (source line 285). -/
def l4coef (t2 nu2 : R) : R := 5.0 - t2 + 9 * nu2 + 4.0 * (nu2 * nu2)

/-- `l5coef` (source line 287). -/
def l5coef (t2 nu2 : R) : R := 5.0 - 18.0 * t2 + (t2 * t2) + 14.0 * nu2 - 58.0 * t2 * nu2

/-- `l6coef` (source line 289). -/
def l6coef (t2 nu2 : R) : R := 61.0 - 58.0 * t2 + (t2 * t2) + 270.0 * nu2 - 330.0 * t2 * nu2

/-- `l7coef` (source line 291). -/
def l7coef (t2 : R) : R := 61.0 - 479.0 * t2 + 179.0 * (t2 * t2) - (t2 * t2 * t2)

/-- `l8coef` (source line 293). -/
def l8coef (t2 : R) : R := 1385.0 - 3111.0 * t2 + 543.0 * (t2 * t2) - (t2 * t2 * t2)

/-- `x2poly` (source line 411). -/
def x2poly (nuf2 : R) : R := -1.0 - nuf2

/-- `x3poly` (source line 413). -/
def x3poly (tf2 nuf2 : R) : R := -1.0 - 2 * tf2 - nuf2

/-- `x4poly` (source line 415). -/
def x4poly (tf2 nuf2 : R) : R :=
  5.0 + 3.0 * tf2 + 6.0 * nuf2 - 6.0 * tf2 * nuf2 - 3.0 * (nuf2 * nuf2) -
    9.0 * tf2 * (nuf2 * nuf2)

/-- `x5poly` (source line 417). -/
def x5poly (tf2 tf4 nuf2 : R) : R := 5.0 + 28.0 * tf2 + 24.0 * tf4 + 6.0 * nuf2 + 8.0 * tf2 * nuf2

/-- `x6poly` (source line 419). -/
def x6poly (tf2 tf4 nuf2 : R) : R :=
  -61.0 - 90.0 * tf2 - 45.0 * tf4 - 107.0 * nuf2 + 162.0 * tf2 * nuf2

/-- `x7poly` (source line 421). -/
def x7poly (tf2 tf4 : R) : R := -61.0 - 662.0 * tf2 - 1320.0 * tf4 - 720.0 * (tf4 * tf2)

/-- `x8poly` (source line 423). -/
def x8poly (tf2 tf4 : R) : R := 1385.0 + 3633.0 * tf2 + 4095.0 * tf4 + 1575 * (tf4 * tf2)

/-- `mapLatLonToXY` (source lines 222-302): forward Transverse Mercator
projection to raw (x, y) relative to central meridian `lambda0`. -/
def mapLatLonToXY (ops : MathOps R) (phi lambda lambda0 : R) : R × R :=
  let ep2 : R := (ELLIPSOID_MODEL_MAJOR_AXIS ^ 2 - ELLIPSOID_MODEL_MINOR_AXIS ^ 2) /
    ELLIPSOID_MODEL_MINOR_AXIS ^ 2
  let nu2 : R := ep2 * ops.cos phi ^ 2
  let N : R := ELLIPSOID_MODEL_MAJOR_AXIS ^ 2 /
    (ELLIPSOID_MODEL_MINOR_AXIS * ops.sqrt (1 + nu2))
  let t : R := ops.tan phi
  let t2 : R := t * t
  let l : R := lambda - lambda0
  let x : R := N * ops.cos phi * l +
    (N / 6.0 * ops.cos phi ^ 3 * l3coef t2 nu2 * l ^ 3) +
    (N / 120.0 * ops.cos phi ^ 5 * l5coef t2 nu2 * l ^ 5) +
    (N / 5040.0 * ops.cos phi ^ 7 * l7coef t2 * l ^ 7)
  let y : R := arcLengthOfMeridian ops phi +
    (t / 2.0 * N * ops.cos phi ^ 2 * l ^ 2) +
    (t / 24.0 * N * ops.cos phi ^ 4 * l4coef t2 nu2 * l ^ 4) +
    (t / 720.0 * N * ops.cos phi ^ 6 * l6coef t2 nu2 * l ^ 6) +
    (t / 40320.0 * N * ops.cos phi ^ 8 * l8coef t2 * l ^ 8)
  (x, y)

/-- `mapXYToLatLon` (source lines 304-432): inverse Transverse Mercator
projection from raw (x, y) relative to central meridian `lambda0`. -/
def mapXYToLatLon (ops : MathOps R) (x y lambda0 : R) : R × R :=
  let phif : R := footpointLatitude ops y
  let ep2 : R := (ELLIPSOID_MODEL_MAJOR_AXIS ^ 2 - ELLIPSOID_MODEL_MINOR_AXIS ^ 2) /
    ELLIPSOID_MODEL_MINOR_AXIS ^ 2
  let cf : R := ops.cos phif
  let nuf2 : R := ep2 * cf ^ 2
  let Nf : R := ELLIPSOID_MODEL_MAJOR_AXIS ^ 2 /
    (ELLIPSOID_MODEL_MINOR_AXIS * ops.sqrt (1 + nuf2))
  let tf : R := ops.tan phif
  let tf2 : R := tf * tf
  let tf4 : R := tf2 * tf2
  let x1frac : R := 1.0 / (Nf * cf)
  let x2frac : R := tf / (2.0 * (Nf * Nf))
  let x3frac : R := 1.0 / (6.0 * (Nf * Nf * Nf) * cf)
  let x4frac : R := tf / (24.0 * (Nf * Nf * Nf * Nf))
  let x5frac : R := 1.0 / (120.0 * (Nf * Nf * Nf * Nf * Nf) * cf)
  let x6frac : R := tf / (720.0 * (Nf * Nf * Nf * Nf * Nf * Nf))
  let x7frac : R := 1.0 / (5040.0 * (Nf * Nf * Nf * Nf * Nf * Nf * Nf) * cf)
  let x8frac : R := tf / (40320.0 * (Nf * Nf * Nf * Nf * Nf * Nf * Nf * Nf))
  let lat : R := phif + x2frac * x2poly nuf2 * (x * x) +
    x4frac * x4poly tf2 nuf2 * x ^ 4 +
    x6frac * x6poly tf2 tf4 nuf2 * x ^ 6 +
    x8frac * x8poly tf2 tf4 * x ^ 8
  let lon : R := lambda0 + x1frac * x +
    x3frac * x3poly tf2 nuf2 * x ^ 3 +
    x5frac * x5poly tf2 tf4 nuf2 * x ^ 5 +
    x7frac * x7poly tf2 tf4 * x ^ 7
  (lat, lon)

/-- `latLonToUTMXY` (source lines 28-58): forward projection plus the UTM
scale factor, false easting, and southern northing offset. -/
def latLonToUTMXY (ops : MathOps R) (lat lon zone : R) : R × R :=
  let xy := mapLatLonToXY ops lat lon (utmCentralMeridian zone)
  let x : R := xy.1 * UTM_SCALE_FACTOR + 500000.0
  let y0 : R := xy.2 * UTM_SCALE_FACTOR
  let y : R := if y0 < 0.0 then y0 + 10000000.0 else y0
  (x, y)

/-- `utmXYToLatLon` (source lines 60-94): undo the UTM offsets and scale,
then apply the inverse projection. -/
def utmXYToLatLon (ops : MathOps R) (x y zone : R) (southhemi : Bool) : R × R :=
  let x' : R := (x - 500000.0) / UTM_SCALE_FACTOR
  let y' : R := (if southhemi then y - 10000000.0 else y) / UTM_SCALE_FACTOR
  let cmeridian : R := utmCentralMeridian zone
  mapXYToLatLon ops x' y' cmeridian

/-- Result record of the `UTM` value builder (source lines 437-450). -/
structure UTMResult (R : Type) where
  lngZone : ℤ
  easting : R
  northing : R
  hemisphere : String

/-- The `UTM` builder (source lines 437-450): zone from longitude, forward
conversion, hemisphere from the sign of the latitude. -/
def UTM [FloorRing R] (ops : MathOps R) (latitude longitude : R) : UTMResult R :=
  let zone : ℤ := ⌊(longitude + 180.0) / 6⌋ + 1
  let xy := latLonToUTMXY ops (degToRad latitude) (degToRad longitude) ((zone : R))
  { lngZone := zone
    easting := xy.1
    northing := xy.2
    hemisphere := if latitude < 0 then "S" else "N" }

/-- Result record of the `LL` value builder (source lines 452-459). -/
structure LLResult (R : Type) where
  longitude : R
  latitude : R

/-- The `LL` builder (source lines 452-459): inverse conversion back to
decimal degrees. -/
def LL (ops : MathOps R) (easting northing zone : R) (hemisphere : String) : LLResult R :=
  let latlon := utmXYToLatLon ops easting northing zone (hemisphere == "S")
  { longitude := radToDeg latlon.2
    latitude := radToDeg latlon.1 }

/-- `Geoconvert.convertDMStoDD` (source lines 462-480); the two thrown string
literals become `Except.error`. -/
def convertDMStoDD (dir : String) (deg min sec : R) : Except String R :=
  if ((dir = "N") ∨ (dir = "S")) ∧ 90 < |deg| then
    Except.error "Latitude out of range (-90 to 90)"
  else if 180 < |deg| then
    Except.error "Longitude out of range (-180 to 180)"
  else
    let d : R := if dir = "S" ∨ dir = "W" then -deg else deg
    let m : R := if dir = "S" ∨ dir = "W" then -min else min
    let s : R := if dir = "S" ∨ dir = "W" then -sec else sec
    Except.ok (d + m / 60 + s / 3600)

end Embedding

/-- A concrete interpretation of the transcendental functions over `ℚ`,
used to instantiate universally quantified structural theorems. -/
def qOps : MathOps ℚ := ⟨fun _ => 0, fun _ => 0, fun _ => 0, fun _ => 0⟩

section StructuralClaims

variable {R : Type} [LinearOrderedField R]

/-- C2: for every input, the forward conversion returns
easting = x * 0.9996 + 500000 and northing = y * 0.9996 where (x, y) is the
raw Transverse Mercator projection at the zone's central meridian, and the
10,000,000 m offset is added exactly when the scaled northing is negative —
the condition is the sign of the computed northing, for every latitude
argument alike. -/
theorem claim2_forward_adjustment (ops : MathOps R) (lat lon zone : R) :
    (latLonToUTMXY ops lat lon zone).1 =
      (mapLatLonToXY ops lat lon (utmCentralMeridian zone)).1 * 0.9996 + 500000 ∧
    (latLonToUTMXY ops lat lon zone).2 =
      (if (mapLatLonToXY ops lat lon (utmCentralMeridian zone)).2 * 0.9996 < 0 then
        (mapLatLonToXY ops lat lon (utmCentralMeridian zone)).2 * 0.9996 + 10000000
      else
        (mapLatLonToXY ops lat lon (utmCentralMeridian zone)).2 * 0.9996) := by
  constructor
  · simp only [latLonToUTMXY, UTM_SCALE_FACTOR]
    norm_num
  · simp only [latLonToUTMXY, UTM_SCALE_FACTOR]
    norm_num

/-- C10: `latLonToUTMXY` consumes the supplied `zone` unconditionally: for
every zone value (in `[1, 60]` or not) the central meridian actually used is
`degToRad (-183 + zone * 6)`, with no clamping and no fallback to the
longitude; in particular `utmCentralMeridian 0` is not `0`, contrary to the
source's documentation comment. -/
theorem claim10_zone_consumed_unconditionally (ops : MathOps R) (lat lon zone : R) :
    (latLonToUTMXY ops lat lon zone).1 =
      (mapLatLonToXY ops lat lon (degToRad (-183.0 + zone * 6.0))).1 * UTM_SCALE_FACTOR
        + 500000.0 ∧
    (latLonToUTMXY ops lat lon zone).2 =
      (if (mapLatLonToXY ops lat lon (degToRad (-183.0 + zone * 6.0))).2 * UTM_SCALE_FACTOR
          < 0.0 then
        (mapLatLonToXY ops lat lon (degToRad (-183.0 + zone * 6.0))).2 * UTM_SCALE_FACTOR
          + 10000000.0
      else
        (mapLatLonToXY ops lat lon (degToRad (-183.0 + zone * 6.0))).2 * UTM_SCALE_FACTOR) ∧
    utmCentralMeridian (0 : R) ≠ 0 := by
  refine ⟨rfl, rfl, ?_⟩
  simp only [utmCentralMeridian, degToRad, PI]
  norm_num

/-- C9: the flattening ratio `n` and series scale `alpha` computed inside
`arcLengthOfMeridian` are identical to the `n` and `alpha_` computed inside
`footpointLatitude`. -/
theorem claim9_same_n_alpha :
    (arcLengthOfMeridian_n : R) = footpointLatitude_n ∧
    (arcLengthOfMeridian_alpha : R) = footpointLatitude_alpha := by
  constructor
  · rfl
  · simp only [arcLengthOfMeridian_alpha, footpointLatitude_alpha, arcLengthOfMeridian_n,
      footpointLatitude_n]
    norm_num

/-- C5: the source's coefficient polynomials `l3coef` … `l8coef` and
`x2poly` … `x8poly` (with `t2 = t·t`, `tf4 = tf2·tf2` as at their call
sites) are exactly the polynomials of the specification table. -/
theorem claim5_coefficient_table (t2 nu2 tf2 nuf2 : R) :
    l3coef t2 nu2 = 1 - t2 + nu2 ∧
    l4coef t2 nu2 = 5 - t2 + 9 * nu2 + 4 * nu2 ^ 2 ∧
    l5coef t2 nu2 = 5 - 18 * t2 + t2 ^ 2 + 14 * nu2 - 58 * t2 * nu2 ∧
    l6coef t2 nu2 = 61 - 58 * t2 + t2 ^ 2 + 270 * nu2 - 330 * t2 * nu2 ∧
    l7coef t2 = 61 - 479 * t2 + 179 * t2 ^ 2 - t2 ^ 3 ∧
    l8coef t2 = 1385 - 3111 * t2 + 543 * t2 ^ 2 - t2 ^ 3 ∧
    x2poly nuf2 = -1 - nuf2 ∧
    x3poly tf2 nuf2 = -1 - 2 * tf2 - nuf2 ∧
    x4poly tf2 nuf2 = 5 + 3 * tf2 + 6 * nuf2 - 6 * tf2 * nuf2 - 3 * nuf2 ^ 2 -
      9 * tf2 * nuf2 ^ 2 ∧
    x5poly tf2 (tf2 * tf2) nuf2 = 5 + 28 * tf2 + 24 * tf2 ^ 2 + 6 * nuf2 + 8 * tf2 * nuf2 ∧
    x6poly tf2 (tf2 * tf2) nuf2 = -61 - 90 * tf2 - 45 * tf2 ^ 2 - 107 * nuf2 +
      162 * tf2 * nuf2 ∧
    x7poly tf2 (tf2 * tf2) = -61 - 662 * tf2 - 1320 * tf2 ^ 2 - 720 * tf2 ^ 3 ∧
    x8poly tf2 (tf2 * tf2) = 1385 + 3633 * tf2 + 4095 * tf2 ^ 2 + 1575 * tf2 ^ 3 := by
  refine ⟨?_, ?_, ?_, ?_, ?_, ?_, ?_, ?_, ?_, ?_, ?_, ?_, ?_⟩ <;>
    simp only [l3coef, l4coef, l5coef, l6coef, l7coef, l8coef, x2poly, x3poly, x4poly,
      x5poly, x6poly, x7poly, x8poly] <;>
    ring

/-- C3: the `UTM` builder assigns `zone = ⌊(lon + 180) / 6⌋ + 1`, and for
`-180 ≤ lon < 180` this zone lies in `[1, 60]`. -/
theorem claim3_zone_selection [FloorRing R] (ops : MathOps R) (lat lon : R) :
    (UTM ops lat lon).lngZone = ⌊(lon + 180) / 6⌋ + 1 ∧
    (-180 ≤ lon → lon < 180 →
      1 ≤ (UTM ops lat lon).lngZone ∧ (UTM ops lat lon).lngZone ≤ 60) := by
  have hz : (UTM ops lat lon).lngZone = ⌊(lon + 180) / 6⌋ + 1 := by
    simp only [UTM]
    norm_num
  refine ⟨hz, fun hlo hhi => ?_⟩
  rw [hz]
  constructor
  · have h0 : (0 : ℤ) ≤ ⌊(lon + 180) / 6⌋ := by
      rw [Int.le_floor]
      push_cast
      have : (0 : R) ≤ lon + 180 := by linarith
      positivity
    omega
  · have h59 : ⌊(lon + 180) / 6⌋ < 60 := by
      rw [Int.floor_lt]
      push_cast
      rw [div_lt_iff₀ (by norm_num : (0 : R) < 6)]
      linarith
    omega

/-- C3 witness: at longitude 15 the hypotheses hold and the zone is in
range (it equals 33). -/
theorem claim3_zone_selection_witness :
    ((-180 : ℚ) ≤ 15 ∧ (15 : ℚ) < 180) ∧
    (1 ≤ (UTM qOps 0 15).lngZone ∧ (UTM qOps 0 15).lngZone ≤ 60) :=
  ⟨⟨by norm_num, by norm_num⟩,
    (claim3_zone_selection qOps 0 15).2 (by norm_num) (by norm_num)⟩

end StructuralClaims

section DmsClaims

variable {R : Type} [LinearOrderedField R]

/-- C6: `convertDMStoDD` fails with the latitude range error iff the
direction is N or S and `|deg| > 90`, fails with the longitude range error
iff the direction is anything else and `|deg| > 180`, and succeeds on every
in-range input. -/
theorem claim6_range_errors (dir : String) (deg min sec : R) :
    (convertDMStoDD dir deg min sec = Except.error "Latitude out of range (-90 to 90)" ↔
      (dir = "N" ∨ dir = "S") ∧ 90 < |deg|) ∧
    (convertDMStoDD dir deg min sec = Except.error "Longitude out of range (-180 to 180)" ↔
      ¬(dir = "N" ∨ dir = "S") ∧ 180 < |deg|) ∧
    ((∃ v, convertDMStoDD dir deg min sec = Except.ok v) ↔
      ¬((dir = "N" ∨ dir = "S") ∧ 90 < |deg|) ∧ ¬(¬(dir = "N" ∨ dir = "S") ∧ 180 < |deg|)) := by
  unfold convertDMStoDD
  by_cases h1 : ((dir = "N") ∨ (dir = "S")) ∧ 90 < |deg|
  · rw [if_pos h1]
    refine ⟨by simp [h1], ?_, by simp [h1]⟩
    constructor
    · intro he
      exact absurd (Except.error.inj he) (by decide)
    · rintro ⟨hns, _⟩
      exact (hns h1.1).elim
  · rw [if_neg h1]
    by_cases h2 : 180 < |deg|
    · rw [if_pos h2]
      have hns : ¬(dir = "N" ∨ dir = "S") := fun hc => h1 ⟨hc, by linarith⟩
      refine ⟨?_, by simp [hns, h2], by simp [hns, h2]⟩
      constructor
      · intro he
        exact absurd (Except.error.inj he) (by decide)
      · rintro ⟨hc1, _⟩
        exact (hns hc1).elim
    · rw [if_neg h2]
      refine ⟨by simp [h1], by simp [h2], ?_⟩
      constructor
      · intro _
        exact ⟨h1, fun hc => h2 hc.2⟩
      · intro _
        exact ⟨_, rfl⟩

/-- C7: on every in-range input `convertDMStoDD` returns
`deg + min/60 + sec/3600`, with the sign of the whole result flipped when
the direction is S or W. -/
theorem claim7_dms_value (dir : String) (deg min sec : R)
    (h1 : ¬((dir = "N" ∨ dir = "S") ∧ 90 < |deg|))
    (h2 : ¬(¬(dir = "N" ∨ dir = "S") ∧ 180 < |deg|)) :
    convertDMStoDD dir deg min sec =
      Except.ok (if dir = "S" ∨ dir = "W" then -(deg + min / 60 + sec / 3600)
        else deg + min / 60 + sec / 3600) := by
  have h180 : ¬(180 < |deg|) := by
    intro hc
    rcases Classical.em (dir = "N" ∨ dir = "S") with hns | hns
    · exact h1 ⟨hns, by linarith⟩
    · exact h2 ⟨hns, hc⟩
  unfold convertDMStoDD
  rw [if_neg h1, if_neg h180]
  split_ifs with hsw
  · show Except.ok ((-deg) + (-min) / 60 + (-sec) / 3600) =
      Except.ok (-(deg + min / 60 + sec / 3600))
    exact congrArg Except.ok (by ring)
  · rfl

/-- C7 witness: `convertDMStoDD "N" 15 0 0 = Except.ok 15`, the spec's test
vector, with the in-range hypotheses discharged at that input. -/
theorem claim7_dms_value_witness :
    (¬((("N" : String) = "N" ∨ ("N" : String) = "S") ∧ 90 < |(15 : ℚ)|)) ∧
    convertDMStoDD "N" (15 : ℚ) 0 0 = Except.ok 15 := by
  constructor
  · intro hc
    have := hc.2
    norm_num at this
  · rw [claim7_dms_value "N" (15 : ℚ) 0 0 (by norm_num) (by norm_num)]
    rw [if_neg (by decide)]
    norm_num

end DmsClaims

section RealHelpers

variable {R : Type} [LinearOrderedField R]

/-- When the longitude argument coincides with the central meridian, every
series term of the forward projection vanishes: the raw output is
`(0, arcLengthOfMeridian phi)`. -/
lemma mapLatLonToXY_central (ops : MathOps R) (phi lambda lambda0 : R)
    (h : lambda - lambda0 = 0) :
    mapLatLonToXY ops phi lambda lambda0 = (0, arcLengthOfMeridian ops phi) := by
  unfold mapLatLonToXY
  rw [h]
  norm_num

/-- `latLonToUTMXY` at the central meridian: easting is exactly the false
easting 500000 and northing is the scaled meridian arc length (offset by
10,000,000 when negative). -/
lemma latLonToUTMXY_central (ops : MathOps R) (lat lon zone : R)
    (h : lon - utmCentralMeridian zone = 0) :
    latLonToUTMXY ops lat lon zone =
      (500000.0,
        if arcLengthOfMeridian ops lat * 0.9996 < 0 then
          arcLengthOfMeridian ops lat * 0.9996 + 10000000.0
        else arcLengthOfMeridian ops lat * 0.9996) := by
  unfold latLonToUTMXY
  rw [mapLatLonToXY_central ops lat lon _ h]
  norm_num [UTM_SCALE_FACTOR]

lemma UTM_lngZone [FloorRing R] (ops : MathOps R) (lat lon : R) :
    (UTM ops lat lon).lngZone = ⌊(lon + 180.0) / 6⌋ + 1 := rfl

lemma UTM_easting [FloorRing R] (ops : MathOps R) (lat lon : R) :
    (UTM ops lat lon).easting =
      (latLonToUTMXY ops (degToRad lat) (degToRad lon)
        (((⌊(lon + 180.0) / 6⌋ + 1 : ℤ) : R))).1 := rfl

lemma UTM_northing [FloorRing R] (ops : MathOps R) (lat lon : R) :
    (UTM ops lat lon).northing =
      (latLonToUTMXY ops (degToRad lat) (degToRad lon)
        (((⌊(lon + 180.0) / 6⌋ + 1 : ℤ) : R))).2 := rfl

lemma UTM_hemisphere [FloorRing R] (ops : MathOps R) (lat lon : R) :
    (UTM ops lat lon).hemisphere = if lat < 0 then "S" else "N" := rfl

/-- Two-sided bounds on `Real.sin` from the cubic Taylor polynomial, for
arguments in `[0, 1]`. -/
lemma sin_taylor_interval (x lo hi : ℝ) (h0 : 0 ≤ x) (h1 : x ≤ 1)
    (hlo : lo ≤ x - x ^ 3 / 6 - x ^ 4 * (5 / 96))
    (hhi : x - x ^ 3 / 6 + x ^ 4 * (5 / 96) ≤ hi) :
    lo ≤ Real.sin x ∧ Real.sin x ≤ hi := by
  have habs : |x| ≤ 1 := by
    rw [abs_of_nonneg h0]
    exact h1
  have hb := Real.sin_bound habs
  rw [abs_of_nonneg h0] at hb
  have hb2 := abs_le.mp hb
  constructor
  · linarith [hb2.1]
  · linarith [hb2.2]

/-- Propagate two-sided `Real.sin` bounds through the triple-angle
formula. -/
lemma sin_triple_interval (x lo hi lo2 hi2 : ℝ)
    (hl : lo ≤ Real.sin x) (hh : Real.sin x ≤ hi) (h0 : 0 ≤ lo)
    (hlo : lo2 ≤ 3 * lo - 4 * hi ^ 3) (hhi : 3 * hi - 4 * lo ^ 3 ≤ hi2) :
    lo2 ≤ Real.sin (3 * x) ∧ Real.sin (3 * x) ≤ hi2 := by
  rw [Real.sin_three_mul]
  have h1 : lo ^ 3 ≤ Real.sin x ^ 3 := pow_le_pow_left₀ h0 hl 3
  have h2 : Real.sin x ^ 3 ≤ hi ^ 3 := pow_le_pow_left₀ (le_trans h0 hl) hh 3
  constructor
  · linarith
  · linarith

end RealHelpers

section RealHelpers2

variable {R : Type} [LinearOrderedField R]

/-- Easting component of `latLonToUTMXY_central`. -/
lemma latLonToUTMXY_central_fst (ops : MathOps R) (lat lon zone : R)
    (h : lon - utmCentralMeridian zone = 0) :
    (latLonToUTMXY ops lat lon zone).1 = 500000.0 := by
  rw [latLonToUTMXY_central ops lat lon zone h]

/-- Northing component of `latLonToUTMXY_central`. -/
lemma latLonToUTMXY_central_snd (ops : MathOps R) (lat lon zone : R)
    (h : lon - utmCentralMeridian zone = 0) :
    (latLonToUTMXY ops lat lon zone).2 =
      if arcLengthOfMeridian ops lat * 0.9996 < 0 then
        arcLengthOfMeridian ops lat * 0.9996 + 10000000.0
      else arcLengthOfMeridian ops lat * 0.9996 := by
  rw [latLonToUTMXY_central ops lat lon zone h]

end RealHelpers2

section Claim4

set_option maxHeartbeats 2000000 in
/-- C4: `new UTM(15, 15)` yields easting exactly 500000 (hence within 1e-6),
northing within 1/4 m of 1658325.9934411813, zone 33, hemisphere North,
with the transcendental functions interpreted by the genuine real ones. -/
theorem claim4_known_vector :
    (UTM (⟨Real.sin, Real.cos, Real.tan, Real.sqrt⟩ : MathOps ℝ) 15 15).easting = 500000 ∧
    |(UTM (⟨Real.sin, Real.cos, Real.tan, Real.sqrt⟩ : MathOps ℝ) 15 15).northing -
      1658325.9934411813| < 1 / 4 ∧
    (UTM (⟨Real.sin, Real.cos, Real.tan, Real.sqrt⟩ : MathOps ℝ) 15 15).lngZone = 33 ∧
    (UTM (⟨Real.sin, Real.cos, Real.tan, Real.sqrt⟩ : MathOps ℝ) 15 15).hemisphere = "N" := by
  have hz : (⌊((15 : ℝ) + 180.0) / 6⌋ + 1 : ℤ) = 33 := by
    have h32 : ⌊((15 : ℝ) + 180.0) / 6⌋ = 32 := by
      rw [Int.floor_eq_iff]
      norm_num
    rw [h32]
    norm_num
  have hl : degToRad (15 : ℝ) - utmCentralMeridian (((33 : ℤ) : ℝ)) = 0 := by
    simp only [degToRad, utmCentralMeridian]
    push_cast
    ring
  have h54 : (0.0581442267 : ℝ) ≤ Real.sin (3.14159265358979 / 54) ∧
      Real.sin (3.14159265358979 / 54) ≤ 0.0581454201 :=
    sin_taylor_interval (3.14159265358979 / 54) 0.0581442267 0.0581454201
      (by norm_num) (by norm_num) (by norm_num) (by norm_num)
  have h18 : (0.1736463462 : ℝ) ≤ Real.sin (3 * (3.14159265358979 / 54)) ∧
      Real.sin (3 * (3.14159265358979 / 54)) ≤ 0.1736499759 :=
    sin_triple_interval (3.14159265358979 / 54) 0.0581442267 0.0581454201
      0.1736463462 0.1736499759 h54.1 h54.2 (by norm_num) (by norm_num) (by norm_num)
  rw [show (3 : ℝ) * (3.14159265358979 / 54) = 3.14159265358979 / 18 by norm_num] at h18
  have h6 : (0.4999938 : ℝ) ≤ Real.sin (3 * (3.14159265358979 / 18)) ∧
      Real.sin (3 * (3.14159265358979 / 18)) ≤ 0.5000062 :=
    sin_triple_interval (3.14159265358979 / 18) 0.1736463462 0.1736499759
      0.4999938 0.5000062 h18.1 h18.2 (by norm_num) (by norm_num) (by norm_num)
  rw [show (3 : ℝ) * (3.14159265358979 / 18) =
    2.0 * ((15 : ℝ) / 180.0 * 3.14159265358979) by norm_num] at h6
  have h27 : (0.1160831899 : ℝ) ≤ Real.sin (3.14159265358979 / 27) ∧
      Real.sin (3.14159265358979 / 27) ≤ 0.1161022830 :=
    sin_taylor_interval (3.14159265358979 / 27) 0.1160831899 0.1161022830
      (by norm_num) (by norm_num) (by norm_num) (by norm_num)
  have h9 : (0.3419894 : ℝ) ≤ Real.sin (3 * (3.14159265358979 / 27)) ∧
      Real.sin (3 * (3.14159265358979 / 27)) ≤ 0.3420499 :=
    sin_triple_interval (3.14159265358979 / 27) 0.1160831899 0.1161022830
      0.3419894 0.3420499 h27.1 h27.2 (by norm_num) (by norm_num) (by norm_num)
  rw [show (3 : ℝ) * (3.14159265358979 / 27) = 3.14159265358979 / 9 by norm_num] at h9
  have h3 : (0.865888 : ℝ) ≤ Real.sin (3 * (3.14159265358979 / 9)) ∧
      Real.sin (3 * (3.14159265358979 / 9)) ≤ 0.866163 :=
    sin_triple_interval (3.14159265358979 / 9) 0.3419894 0.3420499
      0.865888 0.866163 h9.1 h9.2 (by norm_num) (by norm_num) (by norm_num)
  rw [show (3 : ℝ) * (3.14159265358979 / 9) =
    4.0 * ((15 : ℝ) / 180.0 * 3.14159265358979) by norm_num] at h3
  have h6a : (-1 : ℝ) ≤ Real.sin (6.0 * ((15 : ℝ) / 180.0 * 3.14159265358979)) :=
    Real.neg_one_le_sin _
  have h6b : Real.sin (6.0 * ((15 : ℝ) / 180.0 * 3.14159265358979)) ≤ 1 :=
    Real.sin_le_one _
  have h8a : (-1 : ℝ) ≤ Real.sin (8.0 * ((15 : ℝ) / 180.0 * 3.14159265358979)) :=
    Real.neg_one_le_sin _
  have h8b : Real.sin (8.0 * ((15 : ℝ) / 180.0 * 3.14159265358979)) ≤ 1 :=
    Real.sin_le_one _
  have harc : (1658989.4 : ℝ) ≤
      arcLengthOfMeridian (⟨Real.sin, Real.cos, Real.tan, Real.sqrt⟩ : MathOps ℝ)
        (degToRad 15) ∧
      arcLengthOfMeridian (⟨Real.sin, Real.cos, Real.tan, Real.sqrt⟩ : MathOps ℝ)
        (degToRad 15) ≤ 1658989.8 := by
    simp only [arcLengthOfMeridian, arcLengthOfMeridian_n, arcLengthOfMeridian_alpha,
      ELLIPSOID_MODEL_MAJOR_AXIS, ELLIPSOID_MODEL_MINOR_AXIS, degToRad, PI]
    ring_nf
    ring_nf at h6 h3 h6a h6b h8a h8b
    constructor
    · linarith [h6.1, h6.2, h3.1, h3.2, h6a, h6b, h8a, h8b]
    · linarith [h6.1, h6.2, h3.1, h3.2, h6a, h6b, h8a, h8b]
  have hsc : ¬(arcLengthOfMeridian (⟨Real.sin, Real.cos, Real.tan, Real.sqrt⟩ : MathOps ℝ)
      (degToRad 15) * 0.9996 < 0) := by
    push_neg
    nlinarith [harc.1]
  refine ⟨?_, ?_, ?_, ?_⟩
  · rw [UTM_easting, hz, latLonToUTMXY_central_fst _ _ _ _ hl]
    norm_num
  · rw [UTM_northing, hz, latLonToUTMXY_central_snd _ _ _ _ hl, if_neg hsc]
    rw [abs_sub_lt_iff]
    constructor
    · nlinarith [harc.1, harc.2]
    · nlinarith [harc.1, harc.2]
  · rw [UTM_lngZone]
    exact hz
  · rw [UTM_hemisphere, if_neg (by norm_num)]

end Claim4

section Claim8Counterexample

set_option maxHeartbeats 1000000 in
/-- C8 counterexample: at latitude -100 (which is < 0) and longitude 15,
the builder's northing is negative even after the offset, so the claim
as stated over every negative latitude fails. -/
theorem claim8_counterexample :
    (UTM (⟨Real.sin, Real.cos, Real.tan, Real.sqrt⟩ : MathOps ℝ) (-100) 15).northing < 0 := by
  have hz : (⌊((15 : ℝ) + 180.0) / 6⌋ + 1 : ℤ) = 33 := by
    have h32 : ⌊((15 : ℝ) + 180.0) / 6⌋ = 32 := by
      rw [Int.floor_eq_iff]
      norm_num
    rw [h32]
    norm_num
  have hl : degToRad (15 : ℝ) - utmCentralMeridian (((33 : ℤ) : ℝ)) = 0 := by
    simp only [degToRad, utmCentralMeridian]
    push_cast
    ring
  have h2a : (-1 : ℝ) ≤ Real.sin (2.0 * ((-100 : ℝ) / 180.0 * 3.14159265358979)) :=
    Real.neg_one_le_sin _
  have h2b : Real.sin (2.0 * ((-100 : ℝ) / 180.0 * 3.14159265358979)) ≤ 1 :=
    Real.sin_le_one _
  have h4a : (-1 : ℝ) ≤ Real.sin (4.0 * ((-100 : ℝ) / 180.0 * 3.14159265358979)) :=
    Real.neg_one_le_sin _
  have h4b : Real.sin (4.0 * ((-100 : ℝ) / 180.0 * 3.14159265358979)) ≤ 1 :=
    Real.sin_le_one _
  have h6a : (-1 : ℝ) ≤ Real.sin (6.0 * ((-100 : ℝ) / 180.0 * 3.14159265358979)) :=
    Real.neg_one_le_sin _
  have h6b : Real.sin (6.0 * ((-100 : ℝ) / 180.0 * 3.14159265358979)) ≤ 1 :=
    Real.sin_le_one _
  have h8a : (-1 : ℝ) ≤ Real.sin (8.0 * ((-100 : ℝ) / 180.0 * 3.14159265358979)) :=
    Real.neg_one_le_sin _
  have h8b : Real.sin (8.0 * ((-100 : ℝ) / 180.0 * 3.14159265358979)) ≤ 1 :=
    Real.sin_le_one _
  have harc : arcLengthOfMeridian (⟨Real.sin, Real.cos, Real.tan, Real.sqrt⟩ : MathOps ℝ)
      (degToRad (-100)) ≤ -11096000 := by
    simp only [arcLengthOfMeridian, arcLengthOfMeridian_n, arcLengthOfMeridian_alpha,
      ELLIPSOID_MODEL_MAJOR_AXIS, ELLIPSOID_MODEL_MINOR_AXIS, degToRad, PI]
    ring_nf
    ring_nf at h2a h2b h4a h4b h6a h6b h8a h8b
    linarith [h2a, h2b, h4a, h4b, h6a, h6b, h8a, h8b]
  have hneg : arcLengthOfMeridian (⟨Real.sin, Real.cos, Real.tan, Real.sqrt⟩ : MathOps ℝ)
      (degToRad (-100)) * 0.9996 < 0 := by
    nlinarith [harc]
  rw [UTM_northing, hz, latLonToUTMXY_central_snd _ _ _ _ hl, if_pos hneg]
  nlinarith [harc]

end Claim8Counterexample

section Claim8Helpers

/-- The source's own value of pi is smaller than the real `π`. -/
lemma source_pi_lt_pi : (3.14159265358979 : ℝ) < Real.pi :=
  lt_trans (by norm_num) Real.pi_gt_d20

/-- The zone chosen by the `UTM` builder keeps the longitude within
3 degrees (i.e. `PI/60` source-radians) of the zone's central meridian,
for every real longitude. -/
lemma central_meridian_dist (lon : ℝ) :
    |degToRad lon - utmCentralMeridian (((⌊(lon + 180.0) / 6⌋ + 1 : ℤ) : ℝ))| ≤
      3.14159265358979 / 60 := by
  have hfr0 : (0 : ℝ) ≤ (lon + 180.0) / 6 - ⌊(lon + 180.0) / 6⌋ := by
    have := Int.fract_nonneg ((lon + 180.0) / 6)
    rw [Int.fract] at this
    linarith
  have hfr1 : (lon + 180.0) / 6 - ⌊(lon + 180.0) / 6⌋ < 1 := by
    have := Int.fract_lt_one ((lon + 180.0) / 6)
    rw [Int.fract] at this
    linarith
  simp only [degToRad, utmCentralMeridian, PI]
  push_cast
  rw [abs_le]
  constructor
  · nlinarith [hfr0, hfr1]
  · nlinarith [hfr0, hfr1]

/-- Lower bound for the meridian arc length on the southern quarter of the
source's latitude range. -/
lemma arc_lower (phi : ℝ) (h1 : -(3.14159265358979 / 2) ≤ phi) (h2 : phi ≤ 0) :
    6367450 * phi - 17 ≤
      arcLengthOfMeridian (⟨Real.sin, Real.cos, Real.tan, Real.sqrt⟩ : MathOps ℝ) phi := by
  have hs2 : Real.sin (2.0 * phi) ≤ 0 := by
    have h := Real.sin_nonneg_of_nonneg_of_le_pi
      (show (0 : ℝ) ≤ -(2.0 * phi) by linarith)
      (show -(2.0 * phi) ≤ Real.pi by linarith [source_pi_lt_pi])
    rw [Real.sin_neg] at h
    linarith
  have hs4a : (-1 : ℝ) ≤ Real.sin (4.0 * phi) := Real.neg_one_le_sin _
  have hs4b : Real.sin (4.0 * phi) ≤ 1 := Real.sin_le_one _
  have hs6a : (-1 : ℝ) ≤ Real.sin (6.0 * phi) := Real.neg_one_le_sin _
  have hs6b : Real.sin (6.0 * phi) ≤ 1 := Real.sin_le_one _
  have hs8a : (-1 : ℝ) ≤ Real.sin (8.0 * phi) := Real.neg_one_le_sin _
  have hs8b : Real.sin (8.0 * phi) ≤ 1 := Real.sin_le_one _
  simp only [arcLengthOfMeridian, arcLengthOfMeridian_n, arcLengthOfMeridian_alpha,
    ELLIPSOID_MODEL_MAJOR_AXIS, ELLIPSOID_MODEL_MINOR_AXIS]
  ring_nf
  ring_nf at hs2 hs4a hs4b hs6a hs6b hs8a hs8b
  linarith [hs2, hs4a, hs4b, hs6a, hs6b, hs8a, hs8b, h2]

end Claim8Helpers

section Claim8Series

set_option maxHeartbeats 2000000 in
/-- Lower bound on the latitude-correction series of the forward projection:
with `s = sin φ ∈ [-1,0]`, `c = cos φ ∈ (0,1]`, `c ≤ u`, `t = s/c`,
`0 < Nv ≤ 6399594`, `l² ≤ (PI/60)²` and `0 ≤ ep2v ≤ 0.00674`, the sum of the
four correction terms of the northing series is at least `-(8773 u) - 11`. -/
lemma tm_series_lower (s c t l Nv ep2v u : ℝ)
    (hs1 : -1 ≤ s) (hs2 : s ≤ 0) (hc0 : 0 < c) (hc1 : c ≤ 1)
    (hcu : c ≤ u) (hu0 : 0 ≤ u)
    (ht : t = s / c)
    (hN0 : 0 < Nv) (hNle : Nv ≤ 6399594)
    (hl2 : l ^ 2 ≤ 0.002741557)
    (hep0 : 0 ≤ ep2v) (hep1 : ep2v ≤ 0.006740) :
    -(8773 * u) - 11 ≤
      t / 2.0 * Nv * c ^ 2 * l ^ 2 +
      t / 24.0 * Nv * c ^ 4 * l4coef (t * t) (ep2v * c ^ 2) * l ^ 4 +
      t / 720.0 * Nv * c ^ 6 * l6coef (t * t) (ep2v * c ^ 2) * l ^ 6 +
      t / 40320.0 * Nv * c ^ 8 * l8coef (t * t) * l ^ 8 := by
  have hcne : c ≠ 0 := ne_of_gt hc0
  -- rewrite each term as a polynomial in s and c
  have e2 : t / 2.0 * Nv * c ^ 2 * l ^ 2 = s * c * (Nv * l ^ 2) / 2 := by
    rw [ht]
    field_simp
    ring
  have e4 : t / 24.0 * Nv * c ^ 4 * l4coef (t * t) (ep2v * c ^ 2) * l ^ 4 =
      (5 * (s * c ^ 3) - s ^ 3 * c + 9 * ep2v * (s * c ^ 5) + 4 * ep2v ^ 2 * (s * c ^ 7)) *
        (Nv * l ^ 4) / 24 := by
    rw [ht, l4coef]
    field_simp
    ring
  have e6 : t / 720.0 * Nv * c ^ 6 * l6coef (t * t) (ep2v * c ^ 2) * l ^ 6 =
      (61 * (s * c ^ 5) - 58 * (s ^ 3 * c ^ 3) + s ^ 5 * c + 270 * ep2v * (s * c ^ 7) -
        330 * ep2v * (s ^ 3 * c ^ 5)) * (Nv * l ^ 6) / 720 := by
    rw [ht, l6coef]
    field_simp
    ring
  have e8 : t / 40320.0 * Nv * c ^ 8 * l8coef (t * t) * l ^ 8 =
      (1385 * (s * c ^ 7) - 3111 * (s ^ 3 * c ^ 5) + 543 * (s ^ 5 * c ^ 3) - s ^ 7 * c) *
        (Nv * l ^ 8) / 40320 := by
    rw [ht, l8coef]
    field_simp
    ring
  rw [e2, e4, e6, e8]
  -- power facts
  have hc3 : 0 < c ^ 3 := by positivity
  have hc5 : 0 < c ^ 5 := by positivity
  have hc7 : 0 < c ^ 7 := by positivity
  have hc3u : c ^ 3 ≤ 1 := pow_le_one₀ (le_of_lt hc0) hc1
  have hs3 : s ^ 3 ≤ 0 := Odd.pow_nonpos (by decide) hs2
  have hs5 : s ^ 5 ≤ 0 := Odd.pow_nonpos (by decide) hs2
  have hs7 : s ^ 7 ≤ 0 := Odd.pow_nonpos (by decide) hs2
  have hs3g : -1 ≤ s ^ 3 := by nlinarith [sq_nonneg s, sq_nonneg (s + 1), sq_nonneg (s - 1)]
  have hs5g : -1 ≤ s ^ 5 := by
    nlinarith [sq_nonneg (s ^ 2), sq_nonneg s, sq_nonneg (s ^ 2 - 1), sq_nonneg (s ^ 2 + s), hs3g]
  -- signed monomial bounds
  have hsc : -u ≤ s * c := by
    linarith [mul_le_mul_of_nonneg_right hs1 (le_of_lt hc0), hcu]
  have hsc0 : s * c ≤ 0 := by
    linarith [mul_le_mul_of_nonneg_right hs2 (le_of_lt hc0)]
  have hsc3 : -1 ≤ s * c ^ 3 := by
    linarith [mul_le_mul_of_nonneg_right hs1 (le_of_lt hc3), hc3u]
  have hsc3_0 : s * c ^ 3 ≤ 0 := by
    linarith [mul_le_mul_of_nonneg_right hs2 (le_of_lt hc3)]
  have hc5u : c ^ 5 ≤ 1 := pow_le_one₀ (le_of_lt hc0) hc1
  have hc7u : c ^ 7 ≤ 1 := pow_le_one₀ (le_of_lt hc0) hc1
  have hsc5 : -1 ≤ s * c ^ 5 := by
    linarith [mul_le_mul_of_nonneg_right hs1 (le_of_lt hc5), hc5u]
  have hsc5_0 : s * c ^ 5 ≤ 0 := by
    linarith [mul_le_mul_of_nonneg_right hs2 (le_of_lt hc5)]
  have hsc7 : -1 ≤ s * c ^ 7 := by
    linarith [mul_le_mul_of_nonneg_right hs1 (le_of_lt hc7), hc7u]
  have hsc7_0 : s * c ^ 7 ≤ 0 := by
    linarith [mul_le_mul_of_nonneg_right hs2 (le_of_lt hc7)]
  have hs3c : 0 ≤ -(s ^ 3) * c := mul_nonneg (by linarith) (le_of_lt hc0)
  have hs3c3 : s ^ 3 * c ^ 3 ≤ 0 := by
    linarith [mul_le_mul_of_nonneg_right hs3 (le_of_lt hc3)]
  have hs3c5 : s ^ 3 * c ^ 5 ≤ 0 := by
    linarith [mul_le_mul_of_nonneg_right hs3 (le_of_lt hc5)]
  have hs5c1 : -1 ≤ s ^ 5 * c := by
    linarith [mul_le_mul_of_nonneg_right hs5g (le_of_lt hc0), hc1]
  have hs5c0 : s ^ 5 * c ≤ 0 := by
    linarith [mul_le_mul_of_nonneg_right hs5 (le_of_lt hc0)]
  have hs5c3 : -1 ≤ s ^ 5 * c ^ 3 := by
    linarith [mul_le_mul_of_nonneg_right hs5g (le_of_lt hc3), hc3u]
  have hs7c : s ^ 7 * c ≤ 0 := by
    linarith [mul_le_mul_of_nonneg_right hs7 (le_of_lt hc0)]
  -- ep2 products
  have hep_sq : ep2v ^ 2 ≤ 0.0000455 := by
    linarith [mul_le_mul hep1 hep1 hep0 (by norm_num : (0 : ℝ) ≤ 0.006740), sq_nonneg ep2v]
  have hepsc5 : -0.006740 ≤ ep2v * (s * c ^ 5) := by
    linarith [mul_le_mul_of_nonpos_right hep1 hsc5_0, hsc5]
  have hepsc7 : -0.006740 ≤ ep2v * (s * c ^ 7) := by
    linarith [mul_le_mul_of_nonpos_right hep1 hsc7_0, hsc7]
  have hepsc7sq : -0.0000455 ≤ ep2v ^ 2 * (s * c ^ 7) := by
    linarith [mul_le_mul_of_nonpos_right hep_sq hsc7_0, hsc7]
  have heps3c5 : 0 ≤ -(ep2v * (s ^ 3 * c ^ 5)) := by
    linarith [mul_nonneg hep0 (neg_nonneg.mpr hs3c5)]
  -- polynomial lower bounds
  have hP4 : -5.07 ≤ 5 * (s * c ^ 3) - s ^ 3 * c + 9 * ep2v * (s * c ^ 5) +
      4 * ep2v ^ 2 * (s * c ^ 7) := by
    linarith [hsc3, hs3c, hepsc5, hepsc7sq]
  have hP6 : -63.9 ≤ 61 * (s * c ^ 5) - 58 * (s ^ 3 * c ^ 3) + s ^ 5 * c +
      270 * ep2v * (s * c ^ 7) - 330 * ep2v * (s ^ 3 * c ^ 5) := by
    linarith [hsc5, hs3c3, hs5c1, hepsc7, heps3c5]
  have hP8 : -1929 ≤ 1385 * (s * c ^ 7) - 3111 * (s ^ 3 * c ^ 5) + 543 * (s ^ 5 * c ^ 3) -
      s ^ 7 * c := by
    linarith [hsc7, hs3c5, hs5c3, hs7c]
  -- the scale factors Nv * l^(2k)
  have hl0 : 0 ≤ l ^ 2 := sq_nonneg l
  have hl4 : l ^ 4 ≤ 0.002741557 ^ 2 := by
    linarith [mul_le_mul hl2 hl2 hl0 (by norm_num : (0 : ℝ) ≤ 0.002741557)]
  have hl40 : 0 ≤ l ^ 4 := by positivity
  have hl6 : l ^ 6 ≤ 0.002741557 ^ 3 := by
    linarith [mul_le_mul hl2 hl4 hl40 (by norm_num : (0 : ℝ) ≤ 0.002741557)]
  have hl60 : 0 ≤ l ^ 6 := by positivity
  have hl8 : l ^ 8 ≤ 0.002741557 ^ 4 := by
    linarith [mul_le_mul hl4 hl4 hl40 (by norm_num : (0 : ℝ) ≤ 0.002741557 ^ 2)]
  have hl80 : 0 ≤ l ^ 8 := by positivity
  have hX2 : 0 ≤ Nv * l ^ 2 := by positivity
  have hX2u : Nv * l ^ 2 ≤ 17546 := by
    linarith [mul_le_mul hNle hl2 hl0 (by norm_num : (0 : ℝ) ≤ 6399594)]
  have hX4 : 0 ≤ Nv * l ^ 4 := by positivity
  have hX4u : Nv * l ^ 4 ≤ 48.2 := by
    linarith [mul_le_mul hNle hl4 hl40 (by norm_num : (0 : ℝ) ≤ 6399594)]
  have hX6 : 0 ≤ Nv * l ^ 6 := by positivity
  have hX6u : Nv * l ^ 6 ≤ 0.132 := by
    linarith [mul_le_mul hNle hl6 hl60 (by norm_num : (0 : ℝ) ≤ 6399594)]
  have hX8 : 0 ≤ Nv * l ^ 8 := by positivity
  have hX8u : Nv * l ^ 8 ≤ 0.000362 := by
    linarith [mul_le_mul hNle hl8 hl80 (by norm_num : (0 : ℝ) ≤ 6399594)]
  -- bound each term
  have hB2 : -(8773 * u) ≤ s * c * (Nv * l ^ 2) / 2 := by
    linarith [mul_le_mul_of_nonneg_right hsc hX2, mul_le_mul_of_nonneg_left hX2u hu0]
  have hB4 : -(10.2 : ℝ) ≤ (5 * (s * c ^ 3) - s ^ 3 * c + 9 * ep2v * (s * c ^ 5) +
      4 * ep2v ^ 2 * (s * c ^ 7)) * (Nv * l ^ 4) / 24 := by
    linarith [mul_le_mul_of_nonneg_right hP4 hX4, hX4u]
  have hB6 : -(0.1 : ℝ) ≤ (61 * (s * c ^ 5) - 58 * (s ^ 3 * c ^ 3) + s ^ 5 * c +
      270 * ep2v * (s * c ^ 7) - 330 * ep2v * (s ^ 3 * c ^ 5)) * (Nv * l ^ 6) / 720 := by
    linarith [mul_le_mul_of_nonneg_right hP6 hX6, hX6u]
  have hB8 : -(0.1 : ℝ) ≤ (1385 * (s * c ^ 7) - 3111 * (s ^ 3 * c ^ 5) + 543 * (s ^ 5 * c ^ 3) -
      s ^ 7 * c) * (Nv * l ^ 8) / 40320 := by
    linarith [mul_le_mul_of_nonneg_right hP8 hX8, hX8u]
  linarith [hB2, hB4, hB6, hB8]

end Claim8Series

section Claim8Main

set_option maxHeartbeats 2000000 in
/-- On the southern quarter `-PI/2 ≤ φ ≤ 0` with the longitude within
`PI/60` of the central meridian, the raw Transverse Mercator northing is
bounded below by -10,003,000 m. -/
lemma tm_y_lower (phi lam lam0 : ℝ)
    (h1 : -(3.14159265358979 / 2) ≤ phi) (h2 : phi ≤ 0)
    (hlam : |lam - lam0| ≤ 3.14159265358979 / 60) :
    (-10003000 : ℝ) ≤
      (mapLatLonToXY (⟨Real.sin, Real.cos, Real.tan, Real.sqrt⟩ : MathOps ℝ) phi lam lam0).2 := by
  have hpihalf : 0 < phi + Real.pi / 2 := by linarith [source_pi_lt_pi]
  have hc0 : 0 < Real.cos phi := by
    apply Real.cos_pos_of_mem_Ioo
    constructor
    · linarith [source_pi_lt_pi]
    · nlinarith [Real.pi_gt_three]
  have hs_le : Real.sin phi ≤ 0 := by
    have h := Real.sin_nonneg_of_nonneg_of_le_pi
      (show (0 : ℝ) ≤ -phi by linarith)
      (show -phi ≤ Real.pi by linarith [source_pi_lt_pi])
    rw [Real.sin_neg] at h
    linarith
  have hs_ge : (-1 : ℝ) ≤ Real.sin phi := Real.neg_one_le_sin phi
  have hc1 : Real.cos phi ≤ 1 := Real.cos_le_one phi
  have hcu : Real.cos phi ≤ phi + Real.pi / 2 := by
    have ha := Real.sin_add_pi_div_two phi
    have hb := Real.sin_lt hpihalf
    rw [ha] at hb
    linarith
  have htan : Real.tan phi = Real.sin phi / Real.cos phi := Real.tan_eq_sin_div_cos phi
  have hl2 : (lam - lam0) ^ 2 ≤ 0.002741557 := by
    nlinarith [sq_abs (lam - lam0), mul_self_le_mul_self (abs_nonneg (lam - lam0)) hlam]
  have harc := arc_lower phi h1 h2
  simp only [mapLatLonToXY]
  have hep0 : (0 : ℝ) ≤ ((ELLIPSOID_MODEL_MAJOR_AXIS : ℝ) ^ 2 -
      ELLIPSOID_MODEL_MINOR_AXIS ^ 2) / ELLIPSOID_MODEL_MINOR_AXIS ^ 2 := by
    norm_num [ELLIPSOID_MODEL_MAJOR_AXIS, ELLIPSOID_MODEL_MINOR_AXIS]
  have hep1 : ((ELLIPSOID_MODEL_MAJOR_AXIS : ℝ) ^ 2 - ELLIPSOID_MODEL_MINOR_AXIS ^ 2) /
      ELLIPSOID_MODEL_MINOR_AXIS ^ 2 ≤ 0.006740 := by
    norm_num [ELLIPSOID_MODEL_MAJOR_AXIS, ELLIPSOID_MODEL_MINOR_AXIS]
  have hq1 : 1 ≤ Real.sqrt (1 + ((ELLIPSOID_MODEL_MAJOR_AXIS : ℝ) ^ 2 -
      ELLIPSOID_MODEL_MINOR_AXIS ^ 2) / ELLIPSOID_MODEL_MINOR_AXIS ^ 2 *
      Real.cos phi ^ 2) :=
    calc (1 : ℝ) = Real.sqrt 1 := Real.sqrt_one.symm
    _ ≤ _ := Real.sqrt_le_sqrt (by nlinarith [sq_nonneg (Real.cos phi), hep0])
  have hq0 : 0 < Real.sqrt (1 + ((ELLIPSOID_MODEL_MAJOR_AXIS : ℝ) ^ 2 -
      ELLIPSOID_MODEL_MINOR_AXIS ^ 2) / ELLIPSOID_MODEL_MINOR_AXIS ^ 2 *
      Real.cos phi ^ 2) := lt_of_lt_of_le one_pos hq1
  have hNpos : (0 : ℝ) < ELLIPSOID_MODEL_MAJOR_AXIS ^ 2 / (ELLIPSOID_MODEL_MINOR_AXIS *
      Real.sqrt (1 + (ELLIPSOID_MODEL_MAJOR_AXIS ^ 2 - ELLIPSOID_MODEL_MINOR_AXIS ^ 2) /
        ELLIPSOID_MODEL_MINOR_AXIS ^ 2 * Real.cos phi ^ 2)) := by
    apply div_pos
    · norm_num [ELLIPSOID_MODEL_MAJOR_AXIS]
    · exact mul_pos (by norm_num [ELLIPSOID_MODEL_MINOR_AXIS]) hq0
  have hNle : (ELLIPSOID_MODEL_MAJOR_AXIS : ℝ) ^ 2 / (ELLIPSOID_MODEL_MINOR_AXIS *
      Real.sqrt (1 + (ELLIPSOID_MODEL_MAJOR_AXIS ^ 2 - ELLIPSOID_MODEL_MINOR_AXIS ^ 2) /
        ELLIPSOID_MODEL_MINOR_AXIS ^ 2 * Real.cos phi ^ 2)) ≤ 6399594 := by
    rw [div_le_iff₀ (mul_pos (by norm_num [ELLIPSOID_MODEL_MINOR_AXIS]) hq0)]
    have hb : (0 : ℝ) < ELLIPSOID_MODEL_MINOR_AXIS := by norm_num [ELLIPSOID_MODEL_MINOR_AXIS]
    have hbq : (ELLIPSOID_MODEL_MINOR_AXIS : ℝ) ≤ ELLIPSOID_MODEL_MINOR_AXIS *
        Real.sqrt (1 + (ELLIPSOID_MODEL_MAJOR_AXIS ^ 2 - ELLIPSOID_MODEL_MINOR_AXIS ^ 2) /
          ELLIPSOID_MODEL_MINOR_AXIS ^ 2 * Real.cos phi ^ 2) := by
      nlinarith [hq1, hb]
    have hab : (ELLIPSOID_MODEL_MAJOR_AXIS : ℝ) ^ 2 ≤ 6399594 * ELLIPSOID_MODEL_MINOR_AXIS := by
      norm_num [ELLIPSOID_MODEL_MAJOR_AXIS, ELLIPSOID_MODEL_MINOR_AXIS]
    nlinarith [hbq, hab]
  have hser := tm_series_lower (Real.sin phi) (Real.cos phi) (Real.tan phi) (lam - lam0)
    (ELLIPSOID_MODEL_MAJOR_AXIS ^ 2 / (ELLIPSOID_MODEL_MINOR_AXIS *
      Real.sqrt (1 + (ELLIPSOID_MODEL_MAJOR_AXIS ^ 2 - ELLIPSOID_MODEL_MINOR_AXIS ^ 2) /
        ELLIPSOID_MODEL_MINOR_AXIS ^ 2 * Real.cos phi ^ 2)))
    ((ELLIPSOID_MODEL_MAJOR_AXIS ^ 2 - ELLIPSOID_MODEL_MINOR_AXIS ^ 2) /
      ELLIPSOID_MODEL_MINOR_AXIS ^ 2)
    (phi + Real.pi / 2)
    hs_ge hs_le hc0 hc1 hcu (le_of_lt hpihalf) htan hNpos hNle hl2 hep0 hep1
  linarith [harc, hser, Real.pi_lt_d2, h1]

set_option maxHeartbeats 1000000 in
/-- C8 (amended): for every latitude in `[-90, 0)` and every longitude,
the `UTM` builder reports the southern hemisphere and its northing is
non-negative after the 10,000,000 m offset. -/
theorem claim8_amended (lat lon : ℝ) (hlat1 : -90 ≤ lat) (hlat2 : lat < 0) :
    (UTM (⟨Real.sin, Real.cos, Real.tan, Real.sqrt⟩ : MathOps ℝ) lat lon).hemisphere = "S" ∧
    0 ≤ (UTM (⟨Real.sin, Real.cos, Real.tan, Real.sqrt⟩ : MathOps ℝ) lat lon).northing := by
  constructor
  · rw [UTM_hemisphere, if_pos hlat2]
  · rw [UTM_northing]
    have hphi1 : -(3.14159265358979 / 2) ≤ degToRad lat := by
      simp only [degToRad, PI]
      linarith
    have hphi2 : degToRad lat ≤ 0 := by
      simp only [degToRad, PI]
      linarith
    have hlam := central_meridian_dist lon
    have hy := tm_y_lower (degToRad lat) (degToRad lon)
      (utmCentralMeridian (((⌊(lon + 180.0) / 6⌋ + 1 : ℤ) : ℝ))) hphi1 hphi2 hlam
    simp only [latLonToUTMXY, UTM_SCALE_FACTOR]
    split_ifs with hcond
    · linarith [hy]
    · push_neg at hcond
      linarith [hcond]

/-- C8 witness: the amended statement applied at latitude -45, longitude
15, with its hypotheses discharged there. -/
theorem claim8_amended_witness :
    ((-90 : ℝ) ≤ -45 ∧ (-45 : ℝ) < 0) ∧
    ((UTM (⟨Real.sin, Real.cos, Real.tan, Real.sqrt⟩ : MathOps ℝ) (-45) 15).hemisphere = "S" ∧
      0 ≤ (UTM (⟨Real.sin, Real.cos, Real.tan, Real.sqrt⟩ : MathOps ℝ) (-45) 15).northing) :=
  ⟨⟨by norm_num, by norm_num⟩, claim8_amended (-45) 15 (by norm_num) (by norm_num)⟩

end Claim8Main
